/-
Verification of the Dhan automatic risk manager (src/app.py) against its
natural-language specification.

The Python module is embedded shallowly:
* floats are modelled as rationals (the constant 0.20 becomes 1/5);
* the mutable module-level `trading_state.state` dict becomes the
  `DailyState` structure, and every mutating function becomes a pure
  state transformer;
* broker HTTP calls are cut at the function boundary: each evaluation
  cycle receives the broker responses for that cycle in a `TickEnv`
  record, and the transformers additionally report the list of broker
  operations they performed (`BrokerAction`), so that claims about which
  remediation calls are or are not issued can be stated;
* `save_state` writes the in-memory dict to disk unchanged, so
  persistence is identified with the in-memory state;
* a Python exception escaping a check (there is exactly one reachable
  spot: comparing `loss >= None`) is modelled by the `LossOut.err`
  constructor, and the monitor loop's `try/except` then skips the rest
  of that cycle.
-/
import Mathlib

namespace DhanAuto

/-! ### Configuration constants (src/app.py lines 12-15) -/

def MAX_ORDERS_PER_DAY : Nat := 10

/-- `MAX_LOSS_PERCENT = 0.20`, as a rational. -/
def MAX_LOSS_PERCENT : ℚ := 1 / 5

/-! ### String helpers

`check_order_limit` tests `today in order_time` (Python substring
containment), and the loss block formats the loss with `f'{loss:,.2f}'`.
Both are embedded concretely.  The numeric formatter uses round-half-up
where CPython formatting uses round-half-even; no claim depends on the
digits of the formatted string, only on which string template is used. -/

def startsWithL : List Char → List Char → Bool
  | _, [] => true
  | [], _ :: _ => false
  | a :: as, b :: bs => (a == b) && startsWithL as bs

def hasSubL (needle : List Char) : List Char → Bool
  | [] => startsWithL [] needle
  | c :: t => startsWithL (c :: t) needle || hasSubL needle t

/-- Python `needle in hay` on strings. -/
def strHasSub (hay needle : String) : Bool :=
  hasSubL needle.data hay.data

/-- Insert thousands separators into a reversed digit list. -/
def groupRev : List Char → Nat → List Char
  | [], _ => []
  | c :: cs, k =>
    if 0 < k ∧ k % 3 = 0 then ',' :: c :: groupRev cs (k + 1)
    else c :: groupRev cs (k + 1)

def intCommas (n : Nat) : String :=
  String.mk ((groupRev (Nat.toDigits 10 n).reverse 0).reverse)

def padTwo (n : Nat) : String :=
  if n < 10 then "0" ++ toString n else toString n

/-- Floor of a rational, computed directly from its normal form. -/
def qFloor (q : ℚ) : Int := q.num.fdiv q.den

/-- Round half up. -/
def qRound (q : ℚ) : Int := qFloor (q + 1 / 2)

/-- Python `f'{q:,.2f}'`: two decimals and comma grouping. -/
def formatMoney (q : ℚ) : String :=
  let cents : Int := qRound (q * 100)
  let sign := if cents < 0 then "-" else ""
  let a := cents.natAbs
  sign ++ intCommas (a / 100) ++ "." ++ padTwo (a % 100)

/-- The `blocked_reason` written by the loss block:
`f'20% Loss: ₹{loss:,.2f}'` (src/app.py line 272). -/
def lossReason (loss : ℚ) : String :=
  "20% Loss: ₹" ++ formatMoney loss

/-- The `blocked_reason` written by the order block:
`f'{MAX_ORDERS_PER_DAY} orders per day'` (src/app.py line 311). -/
def orderLimitReason : String :=
  toString MAX_ORDERS_PER_DAY ++ " orders per day"

/-- The `blocked_reason` written by the hours block (src/app.py line 225). -/
def hoursReason : String := "Outside trading hours"

/-! ### Balance resolver (`get_dhan_balance`, src/app.py lines 27-123)

JSON leaf values are abstracted to whether Python `float(v)` succeeds
and, if so, to which rational it evaluates; this covers ints, floats and
numeric strings such as `"-50"`.  A `none` endpoint response stands for
a non-200 status; a network exception aborts the Python function with
`None`, which is observationally the same as every remaining endpoint
responding non-200, so it is covered by the all-`none` environment. -/

inductive FieldVal where
  | numLike (q : ℚ)
  | nonNumeric
deriving DecidableEq

inductive JVal where
  | dict (d : List (String × FieldVal))
  | arr (items : List JVal)
  | prim (v : FieldVal)

/-- Python `field in data` followed by `data[field]` on a dict. -/
def dictGet (d : List (String × FieldVal)) (k : String) : Option FieldVal :=
  match d.find? (fun p => p.1 == k) with
  | some p => some p.2
  | none => none

/-- The `for field in balance_fields: … try: return float(data[field])
except: continue` loop. -/
def tryFields (d : List (String × FieldVal)) : List String → Option ℚ
  | [] => none
  | f :: fs =>
    match dictGet d f with
    | some (.numLike q) => some q
    | some .nonNumeric => tryFields d fs
    | none => tryFields d fs

def fundsBalanceFields : List String :=
  ["netAvailableMargin", "availableMargin", "marginAvailable", "balance"]

def fundsListFields : List String :=
  ["netAvailableMargin", "availableMargin", "marginAvailable"]

def accountFields : List String :=
  ["balance", "cashBalance", "availableCash"]

/-- The `/funds` branch: a dict is scanned with `fundsBalanceFields`; a
non-empty list has its first element scanned with `fundsListFields` when
that element is a dict. -/
def fundsExtract : JVal → Option ℚ
  | .dict d => tryFields d fundsBalanceFields
  | .arr (first :: _) =>
    match first with
    | .dict d => tryFields d fundsListFields
    | _ => none
  | _ => none

/-- The `/margin` branch: only the single field `marginAvailable`. -/
def marginExtract : JVal → Option ℚ
  | .dict d =>
    match dictGet d "marginAvailable" with
    | some (.numLike q) => some q
    | _ => none
  | _ => none

/-- The `/account` branch. -/
def accountExtract : JVal → Option ℚ
  | .dict d => tryFields d accountFields
  | _ => none

/-- The three endpoint responses visible to one `get_dhan_balance` call. -/
structure BalanceResponses where
  funds : Option JVal
  margin : Option JVal
  account : Option JVal

def get_dhan_balance (r : BalanceResponses) : Option ℚ :=
  match r.funds.bind fundsExtract with
  | some q => some q
  | none =>
    match r.margin.bind marginExtract with
    | some q => some q
    | none => r.account.bind accountExtract

/-! ### The daily state (`TradingState`, src/app.py lines 168-208) -/

structure DailyState where
  date : String
  morning_balance : Option ℚ
  max_loss_amount : Option ℚ
  order_count : Nat
  trading_allowed : Bool
  blocked_reason : String
  last_balance_check : Option String
  current_balance : Option ℚ
deriving DecidableEq

/-- `self.default_state`, built once in `__init__` from the process
start date (src/app.py lines 171-180). -/
def default_state (startDate : String) : DailyState :=
  { date := startDate
    morning_balance := none
    max_loss_amount := none
    order_count := 0
    trading_allowed := true
    blocked_reason := ""
    last_balance_check := none
    current_balance := none }

/-- `load_state` (src/app.py lines 183-196).  `saved = none` models a
`json.load` failure; `d0` is the process's `default_state`. -/
def load_state (fileExists : Bool) (saved : Option DailyState)
    (d0 : DailyState) : DailyState :=
  if fileExists then
    match saved with
    | some sv => if sv.date ≠ d0.date then d0 else sv
    | none => d0
  else d0

/-- `reset_daily` copies the process's `default_state` (src/app.py
lines 205-208). -/
def reset_daily (d0 : DailyState) : DailyState := d0

/-- Python truthiness of an optional float: `None` and `0.0` are falsy. -/
def truthyQ : Option ℚ → Bool
  | none => false
  | some q => q != 0

/-! ### Broker operations

Observable broker calls.  `cancelOrder` and `placeOrder` model the
cancel / order-placement operations of the broker API; the embedded
checks record which of these they actually perform. -/

inductive BrokerAction where
  | getBalance
  | getOrders
  | getPositions
  | cancelOrder (id : String)
  | placeOrder
deriving DecidableEq

/-- An action that changes broker-side state (a cancel or a new order,
in particular an exit order). -/
def BrokerAction.isRemediation : BrokerAction → Bool
  | .cancelOrder _ => true
  | .placeOrder => true
  | _ => false

/-! ### Orders returned by `get_dhan_orders` -/

inductive OrderEntry where
  | dict (ts : Option String)
  | nonDict

/-- One pass of the filter loop in `check_order_limit`: the entry is a
dict and `today in order.get('orderTimestamp','')`. -/
def entryCountsToday (today : String) : OrderEntry → Bool
  | .dict ts => strHasSub (ts.getD "") today
  | .nonDict => false

def countTodayOrders (orders : List OrderEntry) (today : String) : Nat :=
  (orders.filter (entryCountsToday today)).length

/-! ### The four checks of the monitor loop -/

/-- `check_trading_hours` (src/app.py lines 219-228).  Returns the new
state and the Python return value (`trading_now`). -/
def check_trading_hours (inHours : Bool) (s : DailyState) :
    DailyState × Bool :=
  if inHours then (s, true)
  else if s.trading_allowed then
    ({ s with trading_allowed := false, blocked_reason := hoursReason },
     false)
  else (s, false)

/-- `capture_morning_balance` (src/app.py lines 230-252).  `after925` is
`(now.hour == 9 and now.minute >= 25) or now.hour > 9`; `bal` is the
`get_dhan_balance()` result when the call happens. -/
def capture_morning_balance (after925 : Bool) (bal : Option ℚ)
    (nowStr : String) (s : DailyState) :
    DailyState × List BrokerAction :=
  if after925 ∧ s.morning_balance = none then
    if truthyQ bal then
      ({ s with
          morning_balance := bal
          max_loss_amount := some (bal.getD 0 * MAX_LOSS_PERCENT)
          current_balance := bal
          last_balance_check := some nowStr },
       [.getBalance])
    else (s, [.getBalance])
  else (s, [])

/-- Outcome of `check_loss_limit`: either a normal return, or the
`TypeError` raised by `loss >= None` when `max_loss_amount` is unset
while `morning_balance` is truthy (the exception escapes the function
and is caught by the monitor loop). -/
inductive LossOut where
  | ok (s : DailyState) (acts : List BrokerAction) (breached : Bool)
  | err (s : DailyState) (acts : List BrokerAction)

/-- `check_loss_limit` (src/app.py lines 254-286).  `bal` is the
`get_dhan_balance()` result for this cycle. -/
def check_loss_limit (bal : Option ℚ) (nowStr : String)
    (s : DailyState) : LossOut :=
  if truthyQ s.morning_balance then
    if truthyQ bal then
      let mb := s.morning_balance.getD 0
      let cb := bal.getD 0
      let s1 := { s with
                    current_balance := bal
                    last_balance_check := some nowStr }
      let loss := mb - cb
      match s1.max_loss_amount with
      | none => .err s1 [.getBalance]
      | some mla =>
        if mla ≤ loss ∧ s1.trading_allowed = true then
          .ok { s1 with
                  trading_allowed := false
                  blocked_reason := lossReason loss }
            [.getBalance, .getOrders] true
        else .ok s1 [.getBalance] false
    else .ok s [.getBalance] false
  else .ok s [] false

/-- `check_order_limit` (src/app.py lines 288-316).  `orders` is the
`get_dhan_orders()` result (the empty list when the request fails). -/
def check_order_limit (orders : List OrderEntry) (today : String)
    (s : DailyState) : DailyState × List BrokerAction × Bool :=
  let c := countTodayOrders orders today
  let s1 := { s with order_count := c }
  if MAX_ORDERS_PER_DAY ≤ c ∧ s1.trading_allowed = true then
    ({ s1 with trading_allowed := false,
               blocked_reason := orderLimitReason },
     [.getOrders], true)
  else (s1, [.getOrders], false)

/-- `simulate_order` (src/app.py lines 520-536). -/
def simulate_order (s : DailyState) : DailyState :=
  if s.trading_allowed then { s with order_count := s.order_count + 1 }
  else s

/-! ### One iteration of `auto_monitor_loop` (src/app.py lines 318-350) -/

/-- The environment one cycle observes: clock predicates and the broker
responses for each call the cycle may make. -/
structure TickEnv where
  inHours : Bool
  after925 : Bool
  captureResp : BalanceResponses
  lossResp : BalanceResponses
  orders : List OrderEntry
  today : String
  nowStr : String

/-- One body of the `while True` monitor loop: hours gate, then (when
inside hours) morning capture, loss check and order check; an exception
in the loss check skips the order check. -/
def tick (e : TickEnv) (s : DailyState) :
    DailyState × List BrokerAction :=
  let h := check_trading_hours e.inHours s
  if h.2 then
    let c := capture_morning_balance e.after925
      (get_dhan_balance e.captureResp) e.nowStr h.1
    match check_loss_limit (get_dhan_balance e.lossResp) e.nowStr c.1 with
    | .ok s3 a3 _ =>
      let o := check_order_limit e.orders e.today s3
      (o.1, c.2 ++ (a3 ++ o.2.1))
    | .err s3 a3 => (s3, c.2 ++ a3)
  else (h.1, [])

/-- State part of a cycle. -/
def tickS (e : TickEnv) (s : DailyState) : DailyState := (tick e s).1

/-! ### Operations and reachability -/

inductive Op where
  | tickOp (e : TickEnv)
  | simOrder
  | resetOp

def Op.isReset : Op → Bool
  | .resetOp => true
  | _ => false

/-- Apply one operation; `d0` is the process's default-state snapshot. -/
def applyOp (d0 : DailyState) : Op → DailyState → DailyState
  | .tickOp e, s => tickS e s
  | .simOrder, s => simulate_order s
  | .resetOp, _ => reset_daily d0

def runFrom (d0 s : DailyState) (ops : List Op) : DailyState :=
  ops.foldl (fun t o => applyOp d0 o t) s

/-- State component of a `check_loss_limit` outcome. -/
def LossOut.state : LossOut → DailyState
  | .ok s _ _ => s
  | .err s _ => s

/-- Actions component of a `check_loss_limit` outcome. -/
def LossOut.acts : LossOut → List BrokerAction
  | .ok _ a _ => a
  | .err _ a => a

/-! ### Invariants -/

/-- The loss ceiling is set exactly when the morning balance is, and
then equals `morning_balance * MAX_LOSS_PERCENT`. -/
def ceilInv (s : DailyState) : Prop :=
  (s.morning_balance = none ↔ s.max_loss_amount = none) ∧
  ∀ b, s.morning_balance = some b →
    s.max_loss_amount = some (b * MAX_LOSS_PERCENT)

/-- `blocked_reason` is empty exactly when trading is allowed. -/
def reasonInv (s : DailyState) : Prop :=
  (s.trading_allowed = true → s.blocked_reason = "") ∧
  (s.trading_allowed = false → s.blocked_reason ≠ "")

/-! ### Helper lemmas: the block-reason strings are never empty -/

theorem lossReason_ne_empty (q : ℚ) : lossReason q ≠ "" := by
  simp [lossReason, String.ext_iff]

theorem hoursReason_ne_empty : hoursReason ≠ "" := by
  simp [hoursReason]

theorem orderLimitReason_ne_empty : orderLimitReason ≠ "" := by
  simp [orderLimitReason, String.ext_iff, toString]

/-! ### Helper lemmas: `check_trading_hours` -/

theorem hours_allowed_mono (ih : Bool) (s : DailyState)
    (h : s.trading_allowed = false) :
    ((check_trading_hours ih s).1).trading_allowed = false := by
  unfold check_trading_hours
  split
  · exact h
  · split
    · simp_all
    · exact h

theorem hours_fixed (ih : Bool) (s : DailyState) :
    (check_trading_hours ih s).1.morning_balance = s.morning_balance ∧
    (check_trading_hours ih s).1.max_loss_amount = s.max_loss_amount ∧
    (check_trading_hours ih s).1.order_count = s.order_count ∧
    (check_trading_hours ih s).1.date = s.date := by
  unfold check_trading_hours
  split
  · exact ⟨rfl, rfl, rfl, rfl⟩
  · split <;> exact ⟨rfl, rfl, rfl, rfl⟩

theorem hours_reasonInv (ih : Bool) (s : DailyState) (h : reasonInv s) :
    reasonInv (check_trading_hours ih s).1 := by
  unfold check_trading_hours
  split
  · exact h
  · split
    · refine ⟨fun hc => by simp_all, fun _ => ?_⟩
      exact hoursReason_ne_empty
    · exact h

/-! ### Helper lemmas: `capture_morning_balance` -/

theorem capture_fixed (a925 : Bool) (bal : Option ℚ) (ns : String)
    (s : DailyState) :
    (capture_morning_balance a925 bal ns s).1.trading_allowed =
      s.trading_allowed ∧
    (capture_morning_balance a925 bal ns s).1.blocked_reason =
      s.blocked_reason ∧
    (capture_morning_balance a925 bal ns s).1.order_count =
      s.order_count ∧
    (capture_morning_balance a925 bal ns s).1.date = s.date := by
  unfold capture_morning_balance
  split
  · split <;> exact ⟨rfl, rfl, rfl, rfl⟩
  · exact ⟨rfl, rfl, rfl, rfl⟩

theorem capture_skip (a925 : Bool) (bal : Option ℚ) (ns : String)
    (s : DailyState) (b : ℚ) (h : s.morning_balance = some b) :
    capture_morning_balance a925 bal ns s = (s, []) := by
  unfold capture_morning_balance
  split
  · simp_all
  · rfl

theorem capture_ceilInv (a925 : Bool) (bal : Option ℚ) (ns : String)
    (s : DailyState) (h : ceilInv s) :
    ceilInv (capture_morning_balance a925 bal ns s).1 := by
  unfold capture_morning_balance
  split
  · split
    · rename_i hcond htruthy
      constructor
      · match bal, htruthy with
        | some b, _ => simp
      · intro b hb
        match bal, htruthy, hb with
        | some c, _, hb =>
          simp at hb
          simp [hb]
    · exact h
  · exact h

theorem capture_reasonInv (a925 : Bool) (bal : Option ℚ) (ns : String)
    (s : DailyState) (h : reasonInv s) :
    reasonInv (capture_morning_balance a925 bal ns s).1 := by
  have hf := capture_fixed a925 bal ns s
  unfold reasonInv
  rw [hf.1, hf.2.1]
  exact h

/-! ### Helper lemmas: `check_loss_limit` -/

theorem loss_fixed (bal : Option ℚ) (ns : String) (s : DailyState) :
    (check_loss_limit bal ns s).state.morning_balance =
      s.morning_balance ∧
    (check_loss_limit bal ns s).state.max_loss_amount =
      s.max_loss_amount ∧
    (check_loss_limit bal ns s).state.order_count = s.order_count ∧
    (check_loss_limit bal ns s).state.date = s.date := by
  unfold check_loss_limit
  split
  · split
    · dsimp only
      split
      · exact ⟨rfl, rfl, rfl, rfl⟩
      · split <;> exact ⟨rfl, rfl, rfl, rfl⟩
    · exact ⟨rfl, rfl, rfl, rfl⟩
  · exact ⟨rfl, rfl, rfl, rfl⟩

theorem loss_allowed_mono (bal : Option ℚ) (ns : String)
    (s : DailyState) (h : s.trading_allowed = false) :
    (check_loss_limit bal ns s).state.trading_allowed = false := by
  unfold check_loss_limit
  split
  · split
    · dsimp only
      split
      · exact h
      · split
        · simp_all
        · exact h
    · exact h
  · exact h

theorem loss_reasonInv (bal : Option ℚ) (ns : String) (s : DailyState)
    (h : reasonInv s) :
    reasonInv (check_loss_limit bal ns s).state := by
  unfold check_loss_limit
  split
  · split
    · dsimp only
      split
      · exact h
      · split
        · refine ⟨fun hc => by simp [LossOut.state] at hc, fun _ => ?_⟩
          simp only [LossOut.state]
          exact lossReason_ne_empty _
        · exact h
    · exact h
  · exact h

/-! ### Helper lemmas: `check_order_limit` -/

theorem order_fixed (orders : List OrderEntry) (today : String)
    (s : DailyState) :
    (check_order_limit orders today s).1.morning_balance =
      s.morning_balance ∧
    (check_order_limit orders today s).1.max_loss_amount =
      s.max_loss_amount ∧
    (check_order_limit orders today s).1.date = s.date := by
  unfold check_order_limit
  dsimp only
  split <;> exact ⟨rfl, rfl, rfl⟩

theorem order_count_eq (orders : List OrderEntry) (today : String)
    (s : DailyState) :
    (check_order_limit orders today s).1.order_count =
      countTodayOrders orders today := by
  unfold check_order_limit
  dsimp only
  split <;> rfl

theorem order_allowed_mono (orders : List OrderEntry) (today : String)
    (s : DailyState) (h : s.trading_allowed = false) :
    (check_order_limit orders today s).1.trading_allowed = false := by
  unfold check_order_limit
  dsimp only
  split
  · simp_all
  · exact h

theorem order_reasonInv (orders : List OrderEntry) (today : String)
    (s : DailyState) (h : reasonInv s) :
    reasonInv (check_order_limit orders today s).1 := by
  unfold check_order_limit
  dsimp only
  split
  · refine ⟨fun hc => by simp_all, fun _ => ?_⟩
    exact orderLimitReason_ne_empty
  · exact h

/-! ### Helper lemmas: `simulate_order` -/

theorem sim_fixed (s : DailyState) :
    (simulate_order s).trading_allowed = s.trading_allowed ∧
    (simulate_order s).blocked_reason = s.blocked_reason ∧
    (simulate_order s).morning_balance = s.morning_balance ∧
    (simulate_order s).max_loss_amount = s.max_loss_amount ∧
    (simulate_order s).date = s.date := by
  unfold simulate_order
  split <;> exact ⟨rfl, rfl, rfl, rfl, rfl⟩

theorem sim_count_mono (s : DailyState) :
    s.order_count ≤ (simulate_order s).order_count := by
  unfold simulate_order
  split
  · exact Nat.le_succ _
  · exact Nat.le_refl _

/-! ### Helper lemmas: transporting invariants along field equalities -/

theorem ceilInv_of_eq (s t : DailyState)
    (hm : t.morning_balance = s.morning_balance)
    (hx : t.max_loss_amount = s.max_loss_amount) (h : ceilInv s) :
    ceilInv t := by
  unfold ceilInv at h ⊢
  rw [hm, hx]
  exact h

theorem reasonInv_of_eq (s t : DailyState)
    (ha : t.trading_allowed = s.trading_allowed)
    (hr : t.blocked_reason = s.blocked_reason) (h : reasonInv s) :
    reasonInv t := by
  unfold reasonInv at h ⊢
  rw [ha, hr]
  exact h

/-! ### Helper lemmas: one monitor cycle -/

theorem tickS_date (e : TickEnv) (s : DailyState) :
    (tickS e s).date = s.date := by
  unfold tickS tick
  dsimp only
  split
  · split
    · rename_i s3 a3 br heq
      have ho := (order_fixed e.orders e.today s3).2.2
      have hl := (loss_fixed (get_dhan_balance e.lossResp) e.nowStr
        (capture_morning_balance e.after925 (get_dhan_balance e.captureResp)
          e.nowStr (check_trading_hours e.inHours s).1).1).2.2.2
      rw [heq] at hl
      simp only [LossOut.state] at hl
      have hc := (capture_fixed e.after925 (get_dhan_balance e.captureResp)
        e.nowStr (check_trading_hours e.inHours s).1).2.2.2
      have hh := (hours_fixed e.inHours s).2.2.2
      rw [ho, hl, hc, hh]
    · rename_i s3 a3 heq
      have hl := (loss_fixed (get_dhan_balance e.lossResp) e.nowStr
        (capture_morning_balance e.after925 (get_dhan_balance e.captureResp)
          e.nowStr (check_trading_hours e.inHours s).1).1).2.2.2
      rw [heq] at hl
      simp only [LossOut.state] at hl
      have hc := (capture_fixed e.after925 (get_dhan_balance e.captureResp)
        e.nowStr (check_trading_hours e.inHours s).1).2.2.2
      have hh := (hours_fixed e.inHours s).2.2.2
      dsimp only
      rw [hl, hc, hh]
  · exact (hours_fixed e.inHours s).2.2.2

theorem tickS_allowed_mono (e : TickEnv) (s : DailyState)
    (h : s.trading_allowed = false) :
    (tickS e s).trading_allowed = false := by
  unfold tickS tick
  dsimp only
  have hh := hours_allowed_mono e.inHours s h
  split
  · have hc : (capture_morning_balance e.after925
        (get_dhan_balance e.captureResp) e.nowStr
        (check_trading_hours e.inHours s).1).1.trading_allowed = false := by
      rw [(capture_fixed e.after925 (get_dhan_balance e.captureResp)
        e.nowStr (check_trading_hours e.inHours s).1).1]
      exact hh
    have hl := loss_allowed_mono (get_dhan_balance e.lossResp) e.nowStr
      (capture_morning_balance e.after925 (get_dhan_balance e.captureResp)
        e.nowStr (check_trading_hours e.inHours s).1).1 hc
    split
    · rename_i s3 a3 br heq
      rw [heq] at hl
      simp only [LossOut.state] at hl
      exact order_allowed_mono e.orders e.today s3 hl
    · rename_i s3 a3 heq
      rw [heq] at hl
      simp only [LossOut.state] at hl
      exact hl
  · exact hh

theorem tickS_morning_stable (e : TickEnv) (s : DailyState) (b : ℚ)
    (h : s.morning_balance = some b) :
    (tickS e s).morning_balance = some b ∧
    (tickS e s).max_loss_amount = s.max_loss_amount := by
  unfold tickS tick
  dsimp only
  have hh := hours_fixed e.inHours s
  have hhm : (check_trading_hours e.inHours s).1.morning_balance =
      some b := by rw [hh.1]; exact h
  split
  · rw [capture_skip e.after925 (get_dhan_balance e.captureResp) e.nowStr
      (check_trading_hours e.inHours s).1 b hhm]
    have hl := loss_fixed (get_dhan_balance e.lossResp) e.nowStr
      (check_trading_hours e.inHours s).1
    split
    · rename_i s3 a3 br heq
      rw [heq] at hl
      simp only [LossOut.state] at hl
      have ho := order_fixed e.orders e.today s3
      constructor
      · rw [ho.1, hl.1]; exact hhm
      · rw [ho.2.1, hl.2.1, hh.2.1]
    · rename_i s3 a3 heq
      rw [heq] at hl
      simp only [LossOut.state] at hl
      dsimp only
      constructor
      · rw [hl.1]; exact hhm
      · rw [hl.2.1, hh.2.1]
  · exact ⟨hhm, hh.2.1⟩

theorem tickS_ceilInv (e : TickEnv) (s : DailyState) (h : ceilInv s) :
    ceilInv (tickS e s) := by
  unfold tickS tick
  dsimp only
  have hh := hours_fixed e.inHours s
  have h1 : ceilInv (check_trading_hours e.inHours s).1 :=
    ceilInv_of_eq s _ hh.1 hh.2.1 h
  split
  · have h2 := capture_ceilInv e.after925 (get_dhan_balance e.captureResp)
      e.nowStr (check_trading_hours e.inHours s).1 h1
    have hl := loss_fixed (get_dhan_balance e.lossResp) e.nowStr
      (capture_morning_balance e.after925 (get_dhan_balance e.captureResp)
        e.nowStr (check_trading_hours e.inHours s).1).1
    split
    · rename_i s3 a3 br heq
      rw [heq] at hl
      simp only [LossOut.state] at hl
      have h3 : ceilInv s3 := ceilInv_of_eq _ _ hl.1 hl.2.1 h2
      have ho := order_fixed e.orders e.today s3
      exact ceilInv_of_eq s3 _ ho.1 ho.2.1 h3
    · rename_i s3 a3 heq
      rw [heq] at hl
      simp only [LossOut.state] at hl
      exact ceilInv_of_eq _ _ hl.1 hl.2.1 h2
  · exact h1

theorem tickS_reasonInv (e : TickEnv) (s : DailyState) (h : reasonInv s) :
    reasonInv (tickS e s) := by
  unfold tickS tick
  dsimp only
  have h1 := hours_reasonInv e.inHours s h
  split
  · have h2 := capture_reasonInv e.after925 (get_dhan_balance e.captureResp)
      e.nowStr (check_trading_hours e.inHours s).1 h1
    have h3 := loss_reasonInv (get_dhan_balance e.lossResp) e.nowStr
      (capture_morning_balance e.after925 (get_dhan_balance e.captureResp)
        e.nowStr (check_trading_hours e.inHours s).1).1 h2
    split
    · rename_i s3 a3 br heq
      rw [heq] at h3
      simp only [LossOut.state] at h3
      exact order_reasonInv e.orders e.today s3 h3
    · rename_i s3 a3 heq
      rw [heq] at h3
      simp only [LossOut.state] at h3
      exact h3
  · exact h1

theorem tickS_count_or (e : TickEnv) (s : DailyState) :
    (tickS e s).order_count = s.order_count ∨
    (tickS e s).order_count = countTodayOrders e.orders e.today := by
  unfold tickS tick
  dsimp only
  have hh := hours_fixed e.inHours s
  split
  · have hc := capture_fixed e.after925 (get_dhan_balance e.captureResp)
      e.nowStr (check_trading_hours e.inHours s).1
    have hl := loss_fixed (get_dhan_balance e.lossResp) e.nowStr
      (capture_morning_balance e.after925 (get_dhan_balance e.captureResp)
        e.nowStr (check_trading_hours e.inHours s).1).1
    split
    · rename_i s3 a3 br heq
      right
      exact order_count_eq e.orders e.today s3
    · rename_i s3 a3 heq
      rw [heq] at hl
      simp only [LossOut.state] at hl
      left
      dsimp only
      rw [hl.2.2.1, hc.2.2.1, hh.2.2.1]
  · left
    exact hh.2.2.1

/-! ### Helper lemmas: sequences of operations -/

theorem runFrom_nil (d0 s : DailyState) : runFrom d0 s [] = s := rfl

theorem runFrom_cons (d0 s : DailyState) (o : Op) (ops : List Op) :
    runFrom d0 s (o :: ops) = runFrom d0 (applyOp d0 o s) ops := rfl

theorem runFrom_date (d0 s : DailyState) (ops : List Op)
    (h : s.date = d0.date) : (runFrom d0 s ops).date = d0.date := by
  induction ops generalizing s with
  | nil => exact h
  | cons o ops ih =>
    rw [runFrom_cons]
    apply ih
    cases o with
    | tickOp e => rw [applyOp, tickS_date]; exact h
    | simOrder => rw [applyOp, (sim_fixed s).2.2.2.2]; exact h
    | resetOp => rfl

theorem runFrom_allowed_false (d0 s : DailyState) (ops : List Op)
    (h : s.trading_allowed = false)
    (hops : ops.all (fun o => !o.isReset) = true) :
    (runFrom d0 s ops).trading_allowed = false := by
  induction ops generalizing s with
  | nil => exact h
  | cons o ops ih =>
    rw [List.all_cons, Bool.and_eq_true] at hops
    rw [runFrom_cons]
    apply ih _ _ hops.2
    cases o with
    | tickOp e => exact tickS_allowed_mono e s h
    | simOrder => rw [applyOp, (sim_fixed s).1]; exact h
    | resetOp => simp [Op.isReset] at hops

theorem runFrom_ceilInv (d0 s : DailyState) (ops : List Op)
    (h0 : ceilInv d0) (h : ceilInv s) :
    ceilInv (runFrom d0 s ops) := by
  induction ops generalizing s with
  | nil => exact h
  | cons o ops ih =>
    rw [runFrom_cons]
    apply ih
    cases o with
    | tickOp e => exact tickS_ceilInv e s h
    | simOrder =>
      have hf := sim_fixed s
      exact ceilInv_of_eq s _ hf.2.2.1 hf.2.2.2.1 h
    | resetOp => exact h0

theorem runFrom_reasonInv (d0 s : DailyState) (ops : List Op)
    (h0 : reasonInv d0) (h : reasonInv s) :
    reasonInv (runFrom d0 s ops) := by
  induction ops generalizing s with
  | nil => exact h
  | cons o ops ih =>
    rw [runFrom_cons]
    apply ih
    cases o with
    | tickOp e => exact tickS_reasonInv e s h
    | simOrder =>
      have hf := sim_fixed s
      exact reasonInv_of_eq s _ hf.1 hf.2.1 h
    | resetOp => exact h0

theorem ceilInv_default (startDate : String) :
    ceilInv (default_state startDate) := by
  unfold ceilInv default_state
  simp

theorem reasonInv_default (startDate : String) :
    reasonInv (default_state startDate) := by
  unfold reasonInv default_state
  simp

/-! ### Concrete fixtures for witnesses and counterexamples -/

def d0X : DailyState := default_state "2026-01-02"

def respNone : BalanceResponses := ⟨none, none, none⟩

def resp79k : BalanceResponses :=
  ⟨some (.dict [("netAvailableMargin", .numLike 79000)]), none, none⟩

def resp100k : BalanceResponses :=
  ⟨some (.dict [("netAvailableMargin", .numLike 100000)]), none, none⟩

def respNeg50 : BalanceResponses :=
  ⟨some (.dict [("netAvailableMargin", .numLike (-50))]), none, none⟩

/-- A state whose morning balance of 100000 was captured, with the
derived 20% ceiling of 20000. -/
def sOpen100k : DailyState :=
  { date := "2026-01-02", morning_balance := some 100000,
    max_loss_amount := some 20000, order_count := 3,
    trading_allowed := true, blocked_reason := "",
    last_balance_check := some "09:25:30",
    current_balance := some 100000 }

/-- A state already blocked by the loss rule. -/
def sBlockedLoss : DailyState :=
  { date := "2026-01-02", morning_balance := some 100000,
    max_loss_amount := some 20000, order_count := 3,
    trading_allowed := false, blocked_reason := lossReason 21000,
    last_balance_check := some "11:00:00",
    current_balance := some 79000 }

/-- A state blocked by the trading-hours rule. -/
def sBlockedHours : DailyState :=
  { date := "2026-01-02", morning_balance := none,
    max_loss_amount := none, order_count := 0,
    trading_allowed := false, blocked_reason := hoursReason,
    last_balance_check := none, current_balance := none }

/-- A fresh state except that five simulated orders were recorded. -/
def sFiveOrders : DailyState :=
  { date := "2026-01-02", morning_balance := none,
    max_loss_amount := none, order_count := 5,
    trading_allowed := true, blocked_reason := "",
    last_balance_check := none, current_balance := none }

/-- A persisted state dated the previous day. -/
def sStale : DailyState :=
  { date := "2026-01-01", morning_balance := some 50000,
    max_loss_amount := some 10000, order_count := 7,
    trading_allowed := true, blocked_reason := "",
    last_balance_check := some "14:00:00",
    current_balance := some 48000 }

/-- In-hours cycle in which every broker request fails. -/
def eQuiet : TickEnv :=
  { inHours := true, after925 := true, captureResp := respNone,
    lossResp := respNone, orders := [], today := "2026-01-02",
    nowStr := "10:00:00" }

/-- In-hours cycle whose balance read is 79000 (a 21% loss against a
morning balance of 100000). -/
def eBreach : TickEnv :=
  { inHours := true, after925 := true, captureResp := respNone,
    lossResp := resp79k, orders := [], today := "2026-01-02",
    nowStr := "11:00:00" }

/-- In-hours cycle whose morning-capture read succeeds with 100000. -/
def eCapture : TickEnv :=
  { inHours := true, after925 := true, captureResp := resp100k,
    lossResp := respNone, orders := [], today := "2026-01-02",
    nowStr := "09:25:30" }

/-- Out-of-hours cycle. -/
def eOutside : TickEnv :=
  { inHours := false, after925 := false, captureResp := respNone,
    lossResp := respNone, orders := [], today := "2026-01-02",
    nowStr := "16:00:00" }

/-- In-hours cycle on the day after `sStale`, with one broker order
stamped with the new day. -/
def eNewDay : TickEnv :=
  { inHours := true, after925 := true, captureResp := respNone,
    lossResp := respNone,
    orders := [OrderEntry.dict (some "2026-01-02 09:30:00")],
    today := "2026-01-02", nowStr := "09:30:10" }

/-- Ten broker orders stamped with today's date. -/
def ordersTen : List OrderEntry :=
  List.replicate 10 (OrderEntry.dict (some "2026-01-02 09:31:00"))

/-- In-hours cycle in which the broker reports ten orders for today. -/
def eTenOrders : TickEnv :=
  { inHours := true, after925 := true, captureResp := respNone,
    lossResp := respNone, orders := ordersTen, today := "2026-01-02",
    nowStr := "10:05:00" }

/-! ### Claims -/

/-- Claim C1.  On the cycle in which the 21% loss (morning balance
100000, reading 79000, ceiling 20000) is detected, the code sets
`trading_allowed = false` with the loss reason and fetches the order
list once for its "Cancelling" log line and once for the order count,
but the whole cycle performs no cancel and no order placement: the
claimed emergency remediation (cancel every open order, close every
position, set an emergency flag) does not happen — indeed `DailyState`
has no emergency field at all. -/
theorem C1_loss_breach_no_remediation :
    (tick eBreach sOpen100k).1.trading_allowed = false ∧
    (tick eBreach sOpen100k).1.blocked_reason = lossReason 21000 ∧
    (tick eBreach sOpen100k).2 =
      [.getBalance, .getOrders, .getOrders] ∧
    ((tick eBreach sOpen100k).2.all fun a => !a.isRemediation) = true := by
  refine ⟨?_, ?_, ?_, ?_⟩ <;> with_unfolding_all rfl

/-- Claim C2.  Once `trading_allowed` is false, any sequence of monitor
cycles and simulated orders containing no explicit reset leaves it
false, whatever balances and order counts the broker reports. -/
theorem C2_blocked_is_sticky (d0 s : DailyState) (ops : List Op)
    (h : s.trading_allowed = false)
    (hops : (ops.all fun o => !o.isReset) = true) :
    (runFrom d0 s ops).trading_allowed = false :=
  runFrom_allowed_false d0 s ops h hops

/-- Witness for C2: a loss-blocked state stays blocked across a quiet
cycle, a simulated order and a fresh breach-grade balance reading. -/
theorem C2_blocked_is_sticky_witness :
    DailyState.trading_allowed (runFrom d0X sBlockedLoss
      [Op.tickOp eQuiet, Op.simOrder, Op.tickOp eBreach]) = false :=
  C2_blocked_is_sticky d0X sBlockedLoss
    [Op.tickOp eQuiet, Op.simOrder, Op.tickOp eBreach] rfl rfl

/-- Counterexample to C3: on the body `{"netAvailableMargin": "-50"}`
the resolver returns `-50`, a non-positive number, rather than the
claimed "no balance found". -/
theorem C3_counterexample :
    get_dhan_balance respNeg50 = some (-50) ∧ ¬(0 < (-50 : ℚ)) := by
  constructor
  · with_unfolding_all rfl
  · norm_num

/-- Claim C3 as amended: the resolver returns the first recognised
balance field that Python `float()` parses, with no sign filter of any
kind, so zero and negative values are returned as balances. -/
theorem C3_no_sign_filter (d : List (String × FieldVal))
    (m a : Option JVal) (q : ℚ)
    (h : tryFields d fundsBalanceFields = some q) :
    get_dhan_balance ⟨some (.dict d), m, a⟩ = some q := by
  unfold get_dhan_balance
  simp [fundsExtract, h]

/-- Witness for the amended C3 at the negative-string input. -/
theorem C3_no_sign_filter_witness :
    get_dhan_balance respNeg50 = some (-50) :=
  C3_no_sign_filter [("netAvailableMargin", .numLike (-50))]
    none none (-50) (by with_unfolding_all rfl)

/-- Counterexample to C4: an evaluation cycle run on a state dated
2026-01-01 while the current day is 2026-01-02 neither replaces the
state with a fresh default nor skips the remaining checks — the stale
date survives and the order check still runs (it records the one
new-day order it fetched). -/
theorem C4_counterexample :
    (tickS eNewDay sStale).date = "2026-01-01" ∧
    (tickS eNewDay sStale).date ≠ "2026-01-02" ∧
    (tickS eNewDay sStale).order_count = 1 := by
  refine ⟨?_, of_decide_eq_false ?_, ?_⟩ <;> with_unfolding_all rfl

/-- Claim C4 as amended: the date comparison exists only in
`load_state`, which runs when the process starts; there a stored record
dated differently from the startup default is discarded for that
default.  No evaluation cycle inspects the date, so in a long-running
process the stale state is never rolled over. -/
theorem C4_rollover_only_on_load (sv d0 : DailyState) (e : TickEnv)
    (s : DailyState) (h : sv.date ≠ d0.date) :
    load_state true (some sv) d0 = d0 ∧ (tickS e s).date = s.date := by
  constructor
  · unfold load_state
    simp [h]
  · exact tickS_date e s

/-- Witness for the amended C4 at the stale fixture. -/
theorem C4_rollover_only_on_load_witness :
    load_state true (some sStale) d0X = d0X ∧
    (tickS eQuiet sStale).date = sStale.date :=
  C4_rollover_only_on_load sStale d0X eQuiet sStale (by decide)

/-- Counterexample to C5: a state blocked with the hours reason is NOT
transitioned back to `trading_allowed = true` by the next in-hours
cycle; it stays blocked with the same reason. -/
theorem C5_counterexample :
    sBlockedHours.blocked_reason = hoursReason ∧
    (tickS eQuiet sBlockedHours).trading_allowed = false ∧
    (tickS eQuiet sBlockedHours).blocked_reason = hoursReason := by
  refine ⟨?_, ?_, ?_⟩ <;> with_unfolding_all rfl

/-- Claim C5 as amended: the hours gate is one-directional.  Inside
trading hours `check_trading_hours` changes nothing (it never sets
`trading_allowed` back to true, not even for its own reason); outside
trading hours it blocks an allowed state with the hours reason and
leaves an already-blocked state, whatever its reason, untouched. -/
theorem C5_hours_gate_one_directional (s : DailyState) :
    check_trading_hours true s = (s, true) ∧
    (s.trading_allowed = true →
      check_trading_hours false s =
        ({ s with trading_allowed := false,
                  blocked_reason := hoursReason }, false)) ∧
    (s.trading_allowed = false →
      check_trading_hours false s = (s, false)) := by
  refine ⟨rfl, fun h => ?_, fun h => ?_⟩
  · unfold check_trading_hours
    simp [h]
  · unfold check_trading_hours
    simp [h]

/-- Witness for the amended C5: blocking an open default state, and
leaving a loss-blocked state untouched. -/
theorem C5_hours_gate_one_directional_witness :
    check_trading_hours false d0X =
      ({ d0X with trading_allowed := false,
                  blocked_reason := hoursReason }, false) ∧
    check_trading_hours false sBlockedLoss = (sBlockedLoss, false) :=
  ⟨(C5_hours_gate_one_directional d0X).2.1 rfl,
   (C5_hours_gate_one_directional sBlockedLoss).2.2 rfl⟩

/-- Claim C6.  In every state reachable from process start by monitor
cycles, simulated orders and resets, `max_loss_amount` is set exactly
when `morning_balance` is set and then equals
`morning_balance * MAX_LOSS_PERCENT` (the 20% captured at that moment);
and once `morning_balance` is set, no further cycle — whatever its
balance readings — modifies it or the ceiling, so capture happens at
most once per day. -/
theorem C6_ceiling_tied_to_morning_capture (startDate : String)
    (ops : List Op) :
    ceilInv (runFrom (default_state startDate) (default_state startDate)
      ops) ∧
    ∀ e b,
      DailyState.morning_balance (runFrom (default_state startDate)
        (default_state startDate) ops) = some b →
      DailyState.morning_balance (tickS e (runFrom (default_state startDate)
        (default_state startDate) ops)) = some b ∧
      DailyState.max_loss_amount (tickS e (runFrom (default_state startDate)
        (default_state startDate) ops)) =
      DailyState.max_loss_amount (runFrom (default_state startDate)
        (default_state startDate) ops) := by
  constructor
  · exact runFrom_ceilInv _ _ _ (ceilInv_default _) (ceilInv_default _)
  · intro e b h
    exact tickS_morning_stable e _ b h

/-- Witness for C6: after a capture of 100000, a further cycle with a
failing balance read leaves the morning balance and ceiling alone. -/
theorem C6_ceiling_tied_to_morning_capture_witness :
    DailyState.morning_balance (tickS eQuiet (runFrom
      (default_state "2026-01-02") (default_state "2026-01-02")
      [Op.tickOp eCapture])) = some 100000 ∧
    DailyState.max_loss_amount (tickS eQuiet (runFrom
      (default_state "2026-01-02") (default_state "2026-01-02")
      [Op.tickOp eCapture])) =
    DailyState.max_loss_amount (runFrom (default_state "2026-01-02")
      (default_state "2026-01-02") [Op.tickOp eCapture]) :=
  (C6_ceiling_tied_to_morning_capture "2026-01-02" [Op.tickOp eCapture]).2
    eQuiet 100000 (by with_unfolding_all rfl)

/-- Counterexample to C7: a state with five recorded orders, hit by an
in-hours cycle whose broker order query fails (empty list), has its
`order_count` overwritten down to zero with no reset involved. -/
theorem C7_counterexample :
    sFiveOrders.order_count = 5 ∧
    (tickS eQuiet sFiveOrders).order_count = 0 := by
  refine ⟨?_, ?_⟩ <;> with_unfolding_all rfl

/-- Claim C7 as amended: `order_count` is not monotone within a day.
Each in-hours cycle overwrites it with the count of today's orders in
the broker response for that cycle (zero when the query fails), so it
can decrease without a reset; a cycle that never reaches the order
check leaves it unchanged, and `simulate_order` only ever increases
it. -/
theorem C7_order_count_overwritten (e : TickEnv) (s : DailyState) :
    ((tickS e s).order_count = s.order_count ∨
     (tickS e s).order_count = countTodayOrders e.orders e.today) ∧
    s.order_count ≤ (simulate_order s).order_count :=
  ⟨tickS_count_or e s, sim_count_mono s⟩

/-- Claim C8.  In every state reachable from process start by monitor
cycles, simulated orders and resets, `blocked_reason` is empty when
`trading_allowed` is true and non-empty when it is false. -/
theorem C8_reason_matches_gate (startDate : String) (ops : List Op) :
    (DailyState.trading_allowed (runFrom (default_state startDate)
        (default_state startDate) ops) = true →
      DailyState.blocked_reason (runFrom (default_state startDate)
        (default_state startDate) ops) = "") ∧
    (DailyState.trading_allowed (runFrom (default_state startDate)
        (default_state startDate) ops) = false →
      DailyState.blocked_reason (runFrom (default_state startDate)
        (default_state startDate) ops) ≠ "") :=
  runFrom_reasonInv _ _ _ (reasonInv_default _) (reasonInv_default _)

/-- Witness for C8: after an out-of-hours block the stored reason is
non-empty. -/
theorem C8_reason_matches_gate_witness :
    DailyState.blocked_reason (runFrom (default_state "2026-01-02")
      (default_state "2026-01-02") [Op.tickOp eOutside]) ≠ "" :=
  (C8_reason_matches_gate "2026-01-02" [Op.tickOp eOutside]).2
    (by with_unfolding_all rfl)

/-- Claim C9.  When the counted orders reach the daily maximum while
trading is allowed, `check_order_limit` blocks trading with the
order-limit reason, and its only broker call is the order query — it
performs no cancel and no order placement. -/
theorem C9_order_block_no_remediation (orders : List OrderEntry)
    (today : String) (s : DailyState)
    (ha : s.trading_allowed = true)
    (hc : MAX_ORDERS_PER_DAY ≤ countTodayOrders orders today) :
    (check_order_limit orders today s).1.trading_allowed = false ∧
    (check_order_limit orders today s).1.blocked_reason =
      orderLimitReason ∧
    (check_order_limit orders today s).2.1 = [BrokerAction.getOrders] ∧
    ((check_order_limit orders today s).2.1.all
      fun a => !a.isRemediation) = true := by
  unfold check_order_limit
  dsimp only
  split
  · exact ⟨rfl, rfl, rfl, rfl⟩
  · rename_i hneg
    exact absurd ⟨hc, ha⟩ hneg

/-- Witness for C9 with ten same-day broker orders on a fresh state. -/
theorem C9_order_block_no_remediation_witness :
    (check_order_limit ordersTen "2026-01-02" d0X).1.trading_allowed =
      false ∧
    (check_order_limit ordersTen "2026-01-02" d0X).1.blocked_reason =
      orderLimitReason ∧
    (check_order_limit ordersTen "2026-01-02" d0X).2.1 =
      [BrokerAction.getOrders] ∧
    ((check_order_limit ordersTen "2026-01-02" d0X).2.1.all
      fun a => !a.isRemediation) = true :=
  C9_order_block_no_remediation ordersTen "2026-01-02" d0X rfl
    (by decide)

/-- Claim C10.  Every reset — the `/reset` route and the new-day branch
of `load_state` — installs the default snapshot built once at process
start; since no operation ever writes `date`, every reachable state,
and in particular every post-reset state, is dated with the startup
day, whatever `today` the later cycles observed. -/
theorem C10_reset_restores_startup_snapshot (startDate : String)
    (ops : List Op) (sv : DailyState) :
    runFrom (default_state startDate) (default_state startDate)
      (ops ++ [Op.resetOp]) = default_state startDate ∧
    (sv.date ≠ startDate →
      load_state true (some sv) (default_state startDate) =
        default_state startDate) ∧
    DailyState.date (runFrom (default_state startDate)
      (default_state startDate) ops) = startDate := by
  refine ⟨?_, fun h => ?_, ?_⟩
  · unfold runFrom
    rw [List.foldl_append]
    rfl
  · unfold load_state default_state
    simp [h]
  · exact runFrom_date _ _ _ rfl

/-- Witness for C10: loading yesterday's record at a process started on
2026-01-02 discards it for the startup default. -/
theorem C10_reset_restores_startup_snapshot_witness :
    load_state true (some sStale) (default_state "2026-01-02") =
      default_state "2026-01-02" :=
  (C10_reset_restores_startup_snapshot "2026-01-02" [Op.tickOp eQuiet]
    sStale).2.1 (by decide)

end DhanAuto
